import Mathlib

/-!
Verification development for the scan2webdav file-intake pipeline
(`scan2webdav.go`): a shallow embedding of the per-file processing job
(`processFile`), the upload client (`uploadFile`), the startup directory
scan (`processDir`) and the shell-lexing of the OCR argument string
(`github.com/google/shlex`), together with theorems about the pipeline's
cleanup, error-handling and request-shape behaviour.

External effects (temp-dir creation, the OCR subprocess, the HTTP client,
file opens) are abstracted by explicit environment records carrying the
outcome each external call would report; the control flow acting on those
outcomes is translated line by line from the Go source.
-/

namespace Scan2Webdav

/-- The configuration struct (scan2webdav.go lines 21-34), flattened. -/
structure Config where
  serverUrl : String
  serverUser : String
  serverPass : String
  watcherPath : String
  ocrExec : String
  ocrArgs : String
deriving Repr, DecidableEq

/-! ### Path helpers (path/filepath) -/

/-- `filepath.Base` on a Unix path: empty path gives ".", trailing
separators are stripped, the last element is returned, and a path of only
separators gives "/". -/
def filepathBase (path : String) : String :=
  if path = "" then "."
  else
    -- reversed character list with the trailing separators dropped
    let stripped := path.data.reverse.dropWhile (fun c => c = '/')
    if stripped.isEmpty then "/"
    else String.mk ((stripped.takeWhile (fun c => c ≠ '/')).reverse)

/-- `filepath.Join dir file` for the use in processFile: `dir` is the fresh
temp directory (no trailing separator) and `file` a base name, so Join's
Clean pass is the identity and the result is plain concatenation. -/
def filepathJoin (dir file : String) : String := dir ++ "/" ++ file

/-! ### Shell lexing (github.com/google/shlex)

`shlex.Split` drives a rune-classifying state machine: words are split on
space runes, double quotes allow backslash escaping inside them, single
quotes are non-escaping, backslash escapes the next rune outside quotes,
and `#` starts a comment running to end of line (comment tokens are
skipped by `Lexer.Next`). On EOF inside a quote or after an escape it
returns the words collected so far together with an error. -/

/-- The single-quote rune of the shlex lexer. -/
def singleQuoteChar : Char := Char.ofNat 39

/-- The lexer states of shlex's `scanStream`. -/
inductive LexState where
  | start
  | inWord
  | escaping
  | escapingQuoted
  | quotingEscaping
  | quoting
  | comment
deriving Repr, DecidableEq

/-- shlex's space rune class: space, tab, carriage return, newline. -/
def isSpaceRune (c : Char) : Bool :=
  c = ' ' || c = '\t' || c = '\r' || c = '\n'

/-- One pass of shlex's `scanStream` as consumed by `Split`: processes the
whole input, accumulating the current word `val` and the completed words
`acc` (comment tokens are dropped, as `Lexer.Next` skips them), and on a
premature EOF returns the words so far plus the error message. -/
def shlexScan : List Char → LexState → String → List String →
    List String × Option String
  | [], .start, _, acc => (acc, none)
  | [], .inWord, val, acc => (acc ++ [val], none)
  | [], .comment, _, acc => (acc, none)
  | [], .escaping, _, acc => (acc, some "EOF found after escape character")
  | [], .escapingQuoted, _, acc => (acc, some "EOF found after escape character")
  | [], .quotingEscaping, _, acc => (acc, some "EOF found when expecting closing quote")
  | [], .quoting, _, acc => (acc, some "EOF found when expecting closing quote")
  | c :: rest, .start, _, acc =>
    if isSpaceRune c then shlexScan rest .start "" acc
    else if c = '"' then shlexScan rest .quotingEscaping "" acc
    else if c = singleQuoteChar then shlexScan rest .quoting "" acc
    else if c = '\\' then shlexScan rest .escaping "" acc
    else if c = '#' then shlexScan rest .comment "" acc
    else shlexScan rest .inWord (String.singleton c) acc
  | c :: rest, .inWord, val, acc =>
    if isSpaceRune c then shlexScan rest .start "" (acc ++ [val])
    else if c = '"' then shlexScan rest .quotingEscaping val acc
    else if c = singleQuoteChar then shlexScan rest .quoting val acc
    else if c = '\\' then shlexScan rest .escaping val acc
    else shlexScan rest .inWord (val.push c) acc
  | c :: rest, .escaping, val, acc => shlexScan rest .inWord (val.push c) acc
  | c :: rest, .escapingQuoted, val, acc =>
    shlexScan rest .quotingEscaping (val.push c) acc
  | c :: rest, .quotingEscaping, val, acc =>
    if c = '"' then shlexScan rest .inWord val acc
    else if c = '\\' then shlexScan rest .escapingQuoted val acc
    else shlexScan rest .quotingEscaping (val.push c) acc
  | c :: rest, .quoting, val, acc =>
    if c = singleQuoteChar then shlexScan rest .inWord val acc
    else shlexScan rest .quoting (val.push c) acc
  | c :: rest, .comment, val, acc =>
    if c = '\n' then shlexScan rest .start "" acc
    else shlexScan rest .comment (val.push c) acc

/-- `shlex.Split`: the word list and, when lexing hit a premature EOF, the
error (the partially collected words are returned alongside it, exactly as
the Go function does). -/
def shlexSplit (s : String) : List String × Option String :=
  shlexScan s.data .start "" []

/-- The round-trip input of the spec, built without literal quote
characters: `--flag-a --flag-b 'two words'`. -/
def roundTripArgs : String :=
  "--flag-a --flag-b " ++ String.singleton singleQuoteChar ++ "two words"
    ++ String.singleton singleQuoteChar

example : shlexSplit roundTripArgs = (["--flag-a", "--flag-b", "two words"], none) := by
  decide

/-! ### Upload client (`uploadFile`, scan2webdav.go lines 43-94) -/

/-- An HTTP response as seen by the caller of `client.Do`. -/
structure HttpResponse where
  statusCode : Nat
  body : String
deriving Repr, DecidableEq

/-- One part of the multipart form body, as written by
`bodyWriter.CreateFormFile(fieldName, fileName)` followed by `io.Copy`. -/
structure FormPart where
  fieldName : String
  fileName : String
  content : String
deriving Repr, DecidableEq

/-- The outgoing HTTP request as assembled by `uploadFile` before
`client.Do`. -/
structure UploadRequest where
  method : String
  url : String
  basicUser : String
  basicPass : String
  contentType : String
  parts : List FormPart
deriving Repr, DecidableEq

/-- How a fatal exit of the process happens: `log.Fatal` calls `os.Exit`
and skips deferred calls, while a runtime panic unwinds through deferred
calls before killing the process. -/
inductive Fatal where
  | exitNow (msg : String)
  | panicked (msg : String)
deriving Repr, DecidableEq

/-- Outcomes reported by the external calls `uploadFile` makes. `doResult
= none` models `client.Do` returning an error and a nil response. -/
structure UploadEnv where
  openOk : Bool
  fileContent : String
  copyOk : Bool
  boundary : String
  newRequestOk : Bool
  doResult : Option HttpResponse
  readBodyOk : Bool
deriving Repr, DecidableEq

/-- `uploadFile` either kills the process or hands the response (and the
request it sent) back to `processFile`. -/
inductive UploadOutcome where
  | fatal (f : Fatal)
  | done (req : UploadRequest) (res : HttpResponse)
deriving Repr, DecidableEq

/-- `uploadFile(filename, url, user, passwd)`: builds a multipart body
with the file content under field "file", PUTs it to `url ++ "/" ++
basename` with basic auth, and returns the raw response. Line-by-line
notes: `CreateFormFile` writes into an in-memory `bytes.Buffer` and its
failure branch is dead; `os.Open` failure is `log.Fatalf`; `io.Copy`
failure is `log.Fatalf`; `http.NewRequest` failure is `log.Fatal`; a
`client.Do` error is only logged, after which the deferred
`res.Body.Close()` evaluates its nil receiver and panics; on a non-2xx
status the body is read (`io.ReadAll` failure is `log.Fatal`) and
logged. -/
def uploadFile (filename url user passwd : String) (env : UploadEnv) :
    UploadOutcome :=
  let fileBase := filepathBase filename
  let url := url ++ "/" ++ fileBase
  if !env.openOk then .fatal (.exitNow "Opening file")
  else if !env.copyOk then .fatal (.exitNow "Buffering file")
  else
    -- FormDataContentType: the random boundary is hex, so never quoted
    let contentType := "multipart/form-data; boundary=" ++ env.boundary
    if !env.newRequestOk then .fatal (.exitNow "NewRequest")
    else
      let req : UploadRequest :=
        { method := "PUT", url := url, basicUser := user, basicPass := passwd
          contentType := contentType
          parts := [{ fieldName := "file", fileName := fileBase,
                      content := env.fileContent }] }
      match env.doResult with
      | none => .fatal (.panicked "invalid memory address or nil pointer dereference")
      | some res =>
        if res.statusCode < 200 ∨ 300 ≤ res.statusCode then
          if !env.readBodyOk then .fatal (.exitNow "ReadAll")
          else .done req res
        else .done req res

/-! ### File job orchestration (`processFile`, scan2webdav.go lines 96-148) -/

/-- Outcomes of the external calls `processFile` makes: `ioutil.TempDir`
and the fresh directory name it returns, and whether
`cmd.CombinedOutput()` on the OCR command reported a nil error. -/
structure JobEnv where
  tempDirOk : Bool
  tempDirName : String
  ocrExitOk : Bool
  upload : UploadEnv
deriving Repr, DecidableEq

/-- Terminal state of one file job. A `fatal` outcome takes the whole
process down with it. -/
inductive JobOutcome where
  | succeeded
  | failed
  | fatal (f : Fatal)
deriving Repr, DecidableEq

/-- Observable effects of one `processFile` run. -/
structure JobResult where
  outcome : JobOutcome
  tempDirCreated : Bool
  tempDirRemoved : Bool
  argParseErrorLogged : Bool
  execCall : Option (String × List String)
  uploadAttempted : Bool
  uploadReq : Option UploadRequest
  sourceRemoved : Bool
deriving Repr, DecidableEq

/-- `processFile(cfg, inFile, wait)`: optional 5-second settle sleep (no
modelled effect), temp-dir creation (`log.Fatal` on error), shlex split of
the OCR argument string (a parse error is only logged via `log.Printf`,
after which execution falls through), OCR invocation with the source and
temp output path appended, then on OCR success the upload; the source file
is removed exactly on a 2xx status. The temp dir is removed by the
deferred and the explicit `os.RemoveAll` on normal returns, by unwinding
on a panic, and not at all when `log.Fatal` exits. -/
def processFile (cfg : Config) (inFile : String) (wait : Bool)
    (env : JobEnv) : JobResult :=
  if !env.tempDirOk then
    { outcome := .fatal (.exitNow "TempDir"), tempDirCreated := false
      tempDirRemoved := false, argParseErrorLogged := false
      execCall := none, uploadAttempted := false, uploadReq := none
      sourceRemoved := false }
  else
    let tempFile := filepathJoin env.tempDirName (filepathBase inFile)
    let split := shlexSplit cfg.ocrArgs
    let argParseErrorLogged := split.2.isSome
    let args := split.1 ++ [inFile, tempFile]
    let execCall := some (cfg.ocrExec, args)
    if !env.ocrExitOk then
      { outcome := .failed, tempDirCreated := true, tempDirRemoved := true
        argParseErrorLogged, execCall, uploadAttempted := false
        uploadReq := none, sourceRemoved := false }
    else
      match uploadFile tempFile cfg.serverUrl cfg.serverUser cfg.serverPass
          env.upload with
      | .fatal (.exitNow m) =>
        { outcome := .fatal (.exitNow m), tempDirCreated := true
          tempDirRemoved := false, argParseErrorLogged, execCall
          uploadAttempted := true, uploadReq := none, sourceRemoved := false }
      | .fatal (.panicked m) =>
        { outcome := .fatal (.panicked m), tempDirCreated := true
          tempDirRemoved := true, argParseErrorLogged, execCall
          uploadAttempted := true, uploadReq := none, sourceRemoved := false }
      | .done req res =>
        if 200 ≤ res.statusCode ∧ res.statusCode < 300 then
          { outcome := .succeeded, tempDirCreated := true
            tempDirRemoved := true, argParseErrorLogged, execCall
            uploadAttempted := true, uploadReq := some req
            sourceRemoved := true }
        else
          { outcome := .failed, tempDirCreated := true
            tempDirRemoved := true, argParseErrorLogged, execCall
            uploadAttempted := true, uploadReq := some req
            sourceRemoved := false }

/-! ### Startup directory scan (`processDir`, scan2webdav.go lines 150-160)
and the dispatch order of `main` (lines 191-213) -/

/-- The fields of `os.FileInfo` the walk callback reads. -/
structure FileInfo where
  name : String
  isDir : Bool
deriving Repr, DecidableEq

/-- One invocation of the `filepath.Walk` callback: the path argument, the
`os.FileInfo` (nil when the walk reports a per-entry lstat failure) and
the error argument. -/
structure WalkEntry where
  path : String
  info : Option FileInfo
  err : Option String
deriving Repr, DecidableEq

/-- A `processFile` invocation recorded only by its arguments: the file
path passed and the wait flag. -/
structure JobCall where
  file : String
  wait : Bool
deriving Repr, DecidableEq

/-- What one callback invocation does. -/
structure WalkStep where
  loggedError : Bool
  crashed : Bool
  calls : List JobCall
deriving Repr, DecidableEq

/-- The anonymous walk callback (lines 151-159): a non-nil error is
logged, then `info.IsDir()` is evaluated unconditionally — a nil `info`
panics — and each non-directory entry is processed synchronously as
`cfg.Watcher.Path + "/" + info.Name()` with wait false. -/
def walkCallback (cfg : Config) (e : WalkEntry) : WalkStep :=
  let logged := e.err.isSome
  match e.info with
  | none => { loggedError := logged, crashed := true, calls := [] }
  | some i =>
    { loggedError := logged, crashed := false
      calls := if i.isDir then []
               else [{ file := cfg.watcherPath ++ "/" ++ i.name, wait := false }] }

/-- `processDir`: runs the walk callback over the sequence of entries
`filepath.Walk` reports, in order, collecting the job calls; a panic in
the callback aborts the walk (second component true). -/
def processDir (cfg : Config) : List WalkEntry → List JobCall × Bool
  | [] => ([], false)
  | e :: rest =>
    let s := walkCallback cfg e
    if s.crashed then (s.calls, true)
    else
      let r := processDir cfg rest
      (s.calls ++ r.1, r.2)

/-- `main` (lines 191-213): `processDir` runs to completion before the
watcher loop starts; each delivered watch event then launches
`processFile` with wait true. The result is the ordered list of job
launches, with a flag for a crash during the scan. -/
def mainTrace (cfg : Config) (entries : List WalkEntry)
    (events : List String) : List JobCall × Bool :=
  let scan := processDir cfg entries
  if scan.2 then scan
  else (scan.1 ++ events.map (fun p => { file := p, wait := true }), false)

/-- The job call the scan issues for one walk entry: one per non-directory
entry with a non-nil `FileInfo`, none otherwise. -/
def scanJobOf (cfg : Config) (e : WalkEntry) : Option JobCall :=
  match e.info with
  | none => none
  | some i =>
    if i.isDir then none
    else some { file := cfg.watcherPath ++ "/" ++ i.name, wait := false }

/-! ### Concrete fixtures used by witnesses and counterexamples -/

/-- A well-formed configuration with the default OCR argument string of
`main` (line 166). -/
def mainConfig : Config :=
  { serverUrl := "https://dav.example.com/remote.php/dav/files/scan"
    serverUser := "scan", serverPass := "secret"
    watcherPath := "/watch", ocrExec := "/usr/bin/ocrmypdf"
    ocrArgs := "--pdf-renderer sandwich --tesseract-timeout 1800 --rotate-pages -l eng+deu --deskew --clean --skip-text" }

/-- A configuration whose OCR argument string has an unterminated single
quote, so `shlex.Split` reports an error. -/
def badArgsConfig : Config :=
  { serverUrl := "https://dav.example.com/remote.php/dav/files/scan"
    serverUser := "scan", serverPass := "secret"
    watcherPath := "/watch", ocrExec := "/usr/bin/ocrmypdf"
    ocrArgs := String.singleton singleQuoteChar ++ "unterminated" }

/-- An upload environment where everything succeeds with a 201 status. -/
def happyUploadEnv : UploadEnv :=
  { openOk := true, fileContent := "pdf-bytes", copyOk := true
    boundary := "7b9c2f11aa", newRequestOk := true
    doResult := some { statusCode := 201, body := "" }, readBodyOk := true }

/-- An upload environment where the server answers 500. -/
def rejectUploadEnv : UploadEnv :=
  { openOk := true, fileContent := "pdf-bytes", copyOk := true
    boundary := "7b9c2f11aa", newRequestOk := true
    doResult := some { statusCode := 500, body := "server error" }
    readBodyOk := true }

/-- A job environment where every external call succeeds. -/
def happyJobEnv : JobEnv :=
  { tempDirOk := true, tempDirName := "/tmp/ocrmypdf-123456", ocrExitOk := true
    upload := happyUploadEnv }

/-! ### C1 -/

/-- C1: for a job that reaches the upload step (temp dir created, OCR
succeeded, an HTTP response was obtained), the source file is removed if
and only if the upload response status is 2xx. -/
theorem source_removed_iff_upload_2xx
    (cfg : Config) (inFile : String) (wait : Bool) (env : JobEnv)
    (res : HttpResponse)
    (h1 : env.tempDirOk = true) (h2 : env.ocrExitOk = true)
    (h3 : env.upload.openOk = true) (h4 : env.upload.copyOk = true)
    (h5 : env.upload.newRequestOk = true)
    (h6 : env.upload.doResult = some res)
    (h7 : env.upload.readBodyOk = true) :
    (processFile cfg inFile wait env).uploadAttempted = true ∧
    ((processFile cfg inFile wait env).sourceRemoved = true ↔
      200 ≤ res.statusCode ∧ res.statusCode < 300) := by
  by_cases hc : 200 ≤ res.statusCode ∧ res.statusCode < 300
  · have hc2 : ¬ (res.statusCode < 200 ∨ 300 ≤ res.statusCode) := by omega
    simp [processFile, uploadFile, h1, h2, h3, h4, h5, h6, h7, hc, hc2]
  · have hc2 : res.statusCode < 200 ∨ 300 ≤ res.statusCode := by omega
    simp [processFile, uploadFile, h1, h2, h3, h4, h5, h6, h7, hc, hc2]

/-- Witness for C1 at a concrete job whose upload is answered with 201. -/
theorem source_removed_iff_upload_2xx_witness :
    (happyJobEnv.tempDirOk = true ∧ happyJobEnv.ocrExitOk = true ∧
     happyJobEnv.upload.openOk = true ∧ happyJobEnv.upload.copyOk = true ∧
     happyJobEnv.upload.newRequestOk = true ∧
     happyJobEnv.upload.doResult = some { statusCode := 201, body := "" } ∧
     happyJobEnv.upload.readBodyOk = true) ∧
    ((processFile mainConfig "/watch/scan1.pdf" false happyJobEnv).uploadAttempted = true ∧
     ((processFile mainConfig "/watch/scan1.pdf" false happyJobEnv).sourceRemoved = true ↔
       200 ≤ (201 : Nat) ∧ (201 : Nat) < 300)) :=
  ⟨⟨rfl, rfl, rfl, rfl, rfl, rfl, rfl⟩,
    source_removed_iff_upload_2xx mainConfig "/watch/scan1.pdf" false happyJobEnv
      { statusCode := 201, body := "" } rfl rfl rfl rfl rfl rfl rfl⟩

/-! ### C2 -/

/-- C2: once `ioutil.TempDir` succeeds the temp directory is created at
staging, and on each of the job's exit paths — success, OCR failure,
upload failure — it has been removed when the job terminates. -/
theorem temp_dir_created_and_removed
    (cfg : Config) (inFile : String) (wait : Bool) (env : JobEnv)
    (h : env.tempDirOk = true) :
    (processFile cfg inFile wait env).tempDirCreated = true ∧
    (((processFile cfg inFile wait env).outcome = .succeeded ∨
      (processFile cfg inFile wait env).outcome = .failed) →
      (processFile cfg inFile wait env).tempDirRemoved = true) := by
  cases hoc : env.ocrExitOk with
  | false => simp [processFile, h, hoc]
  | true =>
    cases huf : uploadFile (filepathJoin env.tempDirName (filepathBase inFile))
        cfg.serverUrl cfg.serverUser cfg.serverPass env.upload with
    | fatal f =>
      cases f with
      | exitNow m => simp [processFile, h, hoc, huf]
      | panicked m => simp [processFile, h, hoc, huf]
    | done req res =>
      by_cases hc : 200 ≤ res.statusCode ∧ res.statusCode < 300 <;>
        simp [processFile, h, hoc, huf, hc]

/-- Witness for C2 at a concrete successful job. -/
theorem temp_dir_created_and_removed_witness :
    happyJobEnv.tempDirOk = true ∧
    ((processFile mainConfig "/watch/scan1.pdf" false happyJobEnv).tempDirCreated = true ∧
     (((processFile mainConfig "/watch/scan1.pdf" false happyJobEnv).outcome = .succeeded ∨
       (processFile mainConfig "/watch/scan1.pdf" false happyJobEnv).outcome = .failed) →
       (processFile mainConfig "/watch/scan1.pdf" false happyJobEnv).tempDirRemoved = true)) :=
  ⟨rfl, temp_dir_created_and_removed mainConfig "/watch/scan1.pdf" false happyJobEnv rfl⟩

/-! ### C3 -/

/-- C3: when the OCR command reports a failure (non-zero exit or spawn
error), no upload is attempted, the source file is not removed, the temp
dir is still cleaned up, and the job ends as Failed rather than killing
the process. -/
theorem ocr_failure_no_upload_source_kept
    (cfg : Config) (inFile : String) (wait : Bool) (env : JobEnv)
    (h1 : env.tempDirOk = true) (h2 : env.ocrExitOk = false) :
    (processFile cfg inFile wait env).uploadAttempted = false ∧
    (processFile cfg inFile wait env).sourceRemoved = false ∧
    (processFile cfg inFile wait env).tempDirRemoved = true ∧
    (processFile cfg inFile wait env).outcome = .failed := by
  simp [processFile, h1, h2]

/-- Witness for C3 at a concrete job whose OCR run fails. -/
theorem ocr_failure_no_upload_source_kept_witness :
    ({ happyJobEnv with ocrExitOk := false } : JobEnv).tempDirOk = true ∧
    ({ happyJobEnv with ocrExitOk := false } : JobEnv).ocrExitOk = false ∧
    ((processFile mainConfig "/watch/scan1.pdf" false
        { happyJobEnv with ocrExitOk := false }).uploadAttempted = false ∧
     (processFile mainConfig "/watch/scan1.pdf" false
        { happyJobEnv with ocrExitOk := false }).sourceRemoved = false ∧
     (processFile mainConfig "/watch/scan1.pdf" false
        { happyJobEnv with ocrExitOk := false }).tempDirRemoved = true ∧
     (processFile mainConfig "/watch/scan1.pdf" false
        { happyJobEnv with ocrExitOk := false }).outcome = .failed) :=
  ⟨rfl, rfl, ocr_failure_no_upload_source_kept mainConfig "/watch/scan1.pdf" false
    { happyJobEnv with ocrExitOk := false } rfl rfl⟩

/-! ### C4 -/

/-- C4: a transport-level error from `client.Do` (error returned, nil
response) is fatal to the whole process — the deferred
`res.Body.Close()` dereferences the nil response and panics — rather
than a per-job failure. -/
theorem transport_error_is_process_fatal
    (cfg : Config) (inFile : String) (wait : Bool) (env : JobEnv)
    (h1 : env.tempDirOk = true) (h2 : env.ocrExitOk = true)
    (h3 : env.upload.openOk = true) (h4 : env.upload.copyOk = true)
    (h5 : env.upload.newRequestOk = true)
    (h6 : env.upload.doResult = none) :
    (processFile cfg inFile wait env).outcome =
      .fatal (.panicked "invalid memory address or nil pointer dereference") := by
  simp [processFile, uploadFile, h1, h2, h3, h4, h5, h6]

/-- Witness for C4 at a concrete job whose upload request gets no
response. -/
theorem transport_error_is_process_fatal_witness :
    ({ happyJobEnv with upload := { happyUploadEnv with doResult := none } } : JobEnv).tempDirOk = true ∧
    ({ happyJobEnv with upload := { happyUploadEnv with doResult := none } } : JobEnv).upload.doResult = none ∧
    (processFile mainConfig "/watch/scan1.pdf" false
        { happyJobEnv with upload := { happyUploadEnv with doResult := none } }).outcome =
      .fatal (.panicked "invalid memory address or nil pointer dereference") :=
  ⟨rfl, rfl, transport_error_is_process_fatal mainConfig "/watch/scan1.pdf" false
    { happyJobEnv with upload := { happyUploadEnv with doResult := none } }
    rfl rfl rfl rfl rfl rfl⟩

/-! ### C6 -/

/-- C6: when OCR exits 0 but the temp output file cannot be opened for
upload, `uploadFile` calls `log.Fatalf` and the whole process dies
instead of failing just that job. -/
theorem missing_ocr_output_is_process_fatal
    (cfg : Config) (inFile : String) (wait : Bool) (env : JobEnv)
    (h1 : env.tempDirOk = true) (h2 : env.ocrExitOk = true)
    (h3 : env.upload.openOk = false) :
    (processFile cfg inFile wait env).outcome = .fatal (.exitNow "Opening file") := by
  simp [processFile, uploadFile, h1, h2, h3]

/-- Witness for C6 at a concrete job whose temp output file is missing. -/
theorem missing_ocr_output_is_process_fatal_witness :
    ({ happyJobEnv with upload := { happyUploadEnv with openOk := false } } : JobEnv).upload.openOk = false ∧
    (processFile mainConfig "/watch/scan1.pdf" false
        { happyJobEnv with upload := { happyUploadEnv with openOk := false } }).outcome =
      .fatal (.exitNow "Opening file") :=
  ⟨rfl, missing_ocr_output_is_process_fatal mainConfig "/watch/scan1.pdf" false
    { happyJobEnv with upload := { happyUploadEnv with openOk := false } }
    rfl rfl rfl⟩

/-! ### C5 -/

/-- C5 counterexample: with an unterminated quote in the OCR argument
string, `shlex.Split` reports an error and the error is logged, but the
job does not terminate as Failed: the OCR executable is still invoked
(with the tokens parsed before the error plus the two paths), the upload
is attempted, and the job even succeeds — contradicting the claim that on
an argument-parse error the OCR executable is not invoked and no upload is
attempted. -/
theorem arg_parse_error_still_invokes_ocr :
    (shlexSplit badArgsConfig.ocrArgs).2.isSome = true ∧
    (processFile badArgsConfig "/watch/scan1.pdf" false happyJobEnv).argParseErrorLogged = true ∧
    (processFile badArgsConfig "/watch/scan1.pdf" false happyJobEnv).execCall =
      some ("/usr/bin/ocrmypdf",
        ["/watch/scan1.pdf", "/tmp/ocrmypdf-123456/scan1.pdf"]) ∧
    (processFile badArgsConfig "/watch/scan1.pdf" false happyJobEnv).uploadAttempted = true ∧
    (processFile badArgsConfig "/watch/scan1.pdf" false happyJobEnv).outcome = .succeeded := by
  decide

/-- C5 amended: when shell-lexing of the OCR argument string fails, the
error is logged but the job continues: the OCR executable is invoked with
the tokens parsed before the error followed by the source path and the
temp output path, and the job proceeds through OCR and upload as usual. -/
theorem arg_parse_error_logged_job_continues
    (cfg : Config) (inFile : String) (wait : Bool) (env : JobEnv)
    (h1 : env.tempDirOk = true)
    (h2 : (shlexSplit cfg.ocrArgs).2.isSome = true) :
    (processFile cfg inFile wait env).argParseErrorLogged = true ∧
    (processFile cfg inFile wait env).execCall =
      some (cfg.ocrExec, (shlexSplit cfg.ocrArgs).1 ++
        [inFile, filepathJoin env.tempDirName (filepathBase inFile)]) := by
  cases hoc : env.ocrExitOk with
  | false => simp [processFile, h1, h2, hoc]
  | true =>
    cases huf : uploadFile (filepathJoin env.tempDirName (filepathBase inFile))
        cfg.serverUrl cfg.serverUser cfg.serverPass env.upload with
    | fatal f =>
      cases f with
      | exitNow m => simp [processFile, h1, h2, hoc, huf]
      | panicked m => simp [processFile, h1, h2, hoc, huf]
    | done req res =>
      by_cases hc : 200 ≤ res.statusCode ∧ res.statusCode < 300 <;>
        simp [processFile, h1, h2, hoc, huf, hc]

/-- Witness for the amended C5 at the unterminated-quote configuration. -/
theorem arg_parse_error_logged_job_continues_witness :
    (happyJobEnv.tempDirOk = true ∧
     (shlexSplit badArgsConfig.ocrArgs).2.isSome = true) ∧
    ((processFile badArgsConfig "/watch/scan2.pdf" false happyJobEnv).argParseErrorLogged = true ∧
     (processFile badArgsConfig "/watch/scan2.pdf" false happyJobEnv).execCall =
       some (badArgsConfig.ocrExec, (shlexSplit badArgsConfig.ocrArgs).1 ++
         ["/watch/scan2.pdf",
          filepathJoin happyJobEnv.tempDirName (filepathBase "/watch/scan2.pdf")])) :=
  ⟨⟨rfl, by decide⟩,
    arg_parse_error_logged_job_continues badArgsConfig "/watch/scan2.pdf" false
      happyJobEnv rfl (by decide)⟩

/-! ### C7 -/

/-- C7: the OCR argument string is split by the shlex lexer, the source
path and temp output path are appended as the final two arguments, and the
configured executable is invoked with exactly that vector; and the spec's
round-trip example splits as stated. -/
theorem ocr_invocation_vector
    (cfg : Config) (inFile : String) (wait : Bool) (env : JobEnv)
    (h1 : env.tempDirOk = true)
    (h2 : (shlexSplit cfg.ocrArgs).2 = none) :
    (processFile cfg inFile wait env).execCall =
      some (cfg.ocrExec, (shlexSplit cfg.ocrArgs).1 ++
        [inFile, filepathJoin env.tempDirName (filepathBase inFile)]) ∧
    shlexSplit roundTripArgs = (["--flag-a", "--flag-b", "two words"], none) := by
  refine ⟨?_, by decide⟩
  cases hoc : env.ocrExitOk with
  | false => simp [processFile, h1, hoc]
  | true =>
    cases huf : uploadFile (filepathJoin env.tempDirName (filepathBase inFile))
        cfg.serverUrl cfg.serverUser cfg.serverPass env.upload with
    | fatal f =>
      cases f with
      | exitNow m => simp [processFile, h1, hoc, huf]
      | panicked m => simp [processFile, h1, hoc, huf]
    | done req res =>
      by_cases hc : 200 ≤ res.statusCode ∧ res.statusCode < 300 <;>
        simp [processFile, h1, hoc, huf, hc]

set_option maxRecDepth 16384 in
/-- Witness for C7 at the default OCR argument string of `main`. -/
theorem ocr_invocation_vector_witness :
    (happyJobEnv.tempDirOk = true ∧ (shlexSplit mainConfig.ocrArgs).2 = none) ∧
    ((processFile mainConfig "/watch/scan1.pdf" false happyJobEnv).execCall =
       some (mainConfig.ocrExec, (shlexSplit mainConfig.ocrArgs).1 ++
         ["/watch/scan1.pdf",
          filepathJoin happyJobEnv.tempDirName (filepathBase "/watch/scan1.pdf")]) ∧
     shlexSplit roundTripArgs = (["--flag-a", "--flag-b", "two words"], none)) :=
  ⟨⟨rfl, by decide⟩,
    ocr_invocation_vector mainConfig "/watch/scan1.pdf" false happyJobEnv rfl
      (by decide)⟩

/-! ### C8 -/

/-- C8: every request `uploadFile` obtains a response for is a PUT to the
base URL extended by "/" and the file's base name, carries basic auth with
the configured user and password, a multipart/form-data content type with
the writer's boundary, and a single form part holding the file content
under field name "file" with filename equal to the base name. -/
theorem upload_request_shape
    (filename url user passwd : String) (env : UploadEnv)
    (req : UploadRequest) (res : HttpResponse)
    (h : uploadFile filename url user passwd env = .done req res) :
    req.method = "PUT" ∧
    req.url = url ++ "/" ++ filepathBase filename ∧
    req.basicUser = user ∧
    req.basicPass = passwd ∧
    req.contentType = "multipart/form-data; boundary=" ++ env.boundary ∧
    req.parts = [{ fieldName := "file", fileName := filepathBase filename,
                   content := env.fileContent }] := by
  cases hopen : env.openOk with
  | false => simp [uploadFile, hopen] at h
  | true =>
  cases hcopy : env.copyOk with
  | false => simp [uploadFile, hopen, hcopy] at h
  | true =>
  cases hreq : env.newRequestOk with
  | false => simp [uploadFile, hopen, hcopy, hreq] at h
  | true =>
  cases hdo : env.doResult with
  | none => simp [uploadFile, hopen, hcopy, hreq, hdo] at h
  | some r =>
    by_cases hc : r.statusCode < 200 ∨ 300 ≤ r.statusCode
    · cases hread : env.readBodyOk with
      | false => simp [uploadFile, hopen, hcopy, hreq, hdo, hc, hread] at h
      | true =>
        simp [uploadFile, hopen, hcopy, hreq, hdo, hc, hread] at h
        obtain ⟨hq, -⟩ := h
        subst hq
        exact ⟨rfl, rfl, rfl, rfl, rfl, rfl⟩
    · simp [uploadFile, hopen, hcopy, hreq, hdo, hc] at h
      obtain ⟨hq, -⟩ := h
      subst hq
      exact ⟨rfl, rfl, rfl, rfl, rfl, rfl⟩

/-- The request `uploadFile` builds in the C8 witness scenario. -/
def c8Req : UploadRequest :=
  { method := "PUT"
    url := mainConfig.serverUrl ++ "/scan1.pdf"
    basicUser := mainConfig.serverUser
    basicPass := mainConfig.serverPass
    contentType := "multipart/form-data; boundary=7b9c2f11aa"
    parts := [{ fieldName := "file", fileName := "scan1.pdf",
                content := "pdf-bytes" }] }

/-- The response of the C8 witness scenario. -/
def c8Res : HttpResponse := { statusCode := 201, body := "" }

/-- Witness for C8 at a concrete upload answered with 201. -/
theorem upload_request_shape_witness :
    uploadFile "/tmp/ocrmypdf-123456/scan1.pdf" mainConfig.serverUrl
        mainConfig.serverUser mainConfig.serverPass happyUploadEnv =
      .done c8Req c8Res ∧
    (c8Req.method = "PUT" ∧
     c8Req.url = mainConfig.serverUrl ++ "/" ++
       filepathBase "/tmp/ocrmypdf-123456/scan1.pdf" ∧
     c8Req.basicUser = mainConfig.serverUser ∧
     c8Req.basicPass = mainConfig.serverPass ∧
     c8Req.contentType = "multipart/form-data; boundary=" ++ happyUploadEnv.boundary ∧
     c8Req.parts = [{ fieldName := "file",
                      fileName := filepathBase "/tmp/ocrmypdf-123456/scan1.pdf",
                      content := happyUploadEnv.fileContent }]) :=
  ⟨by decide,
    upload_request_shape "/tmp/ocrmypdf-123456/scan1.pdf" mainConfig.serverUrl
      mainConfig.serverUser mainConfig.serverPass happyUploadEnv c8Req c8Res
      (by decide)⟩

/-! ### C9 -/

/-- When every walk entry carries a `FileInfo`, the scan issues exactly
the job calls `scanJobOf` describes, in entry order, and does not crash. -/
theorem processDir_eq_filterMap (cfg : Config) (entries : List WalkEntry)
    (h : ∀ e ∈ entries, e.info.isSome = true) :
    processDir cfg entries = (entries.filterMap (scanJobOf cfg), false) := by
  induction entries with
  | nil => rfl
  | cons e rest ih =>
    obtain ⟨i, hi⟩ := Option.isSome_iff_exists.mp (h e (List.mem_cons_self e rest))
    have ihr := ih (fun x hx => h x (List.mem_cons_of_mem e hx))
    cases hd : i.isDir with
    | false => simp [processDir, walkCallback, scanJobOf, hi, hd, ihr]
    | true => simp [processDir, walkCallback, scanJobOf, hi, hd, ihr]

/-- Any job call `scanJobOf` produces has the wait flag false. -/
theorem scanJobOf_wait_false (cfg : Config) (e : WalkEntry) (c : JobCall)
    (h : scanJobOf cfg e = some c) : c.wait = false := by
  unfold scanJobOf at h
  cases he : e.info with
  | none => simp [he] at h
  | some i =>
    cases hd : i.isDir with
    | true => simp [he, hd] at h
    | false =>
      simp [he, hd] at h
      subst h
      rfl

/-- C9: when each entry of the startup walk carries a `FileInfo` (no
per-entry lstat failure), the scan issues exactly one job call per
non-directory entry — `cfg.Watcher.Path + "/" + name`, wait flag false —
and in the overall dispatch order all of these precede every
watcher-event job. -/
theorem startup_scan_one_job_per_file
    (cfg : Config) (entries : List WalkEntry) (events : List String)
    (h : ∀ e ∈ entries, e.info.isSome = true) :
    processDir cfg entries = (entries.filterMap (scanJobOf cfg), false) ∧
    (∀ c ∈ (processDir cfg entries).1, c.wait = false) ∧
    mainTrace cfg entries events =
      (entries.filterMap (scanJobOf cfg) ++
        events.map (fun p => { file := p, wait := true }), false) := by
  have hp := processDir_eq_filterMap cfg entries h
  refine ⟨hp, ?_, ?_⟩
  · intro c hc
    rw [hp] at hc
    obtain ⟨e, -, he⟩ := List.mem_filterMap.mp hc
    exact scanJobOf_wait_false cfg e c he
  · unfold mainTrace
    rw [hp]
    simp

/-- Concrete walk-entry sequence for the C9 witness: the watched
directory's own entry followed by two regular files. -/
def scanEntries : List WalkEntry :=
  [ { path := "/watch", info := some { name := "watch", isDir := true }
      err := none }
  , { path := "/watch/a.pdf", info := some { name := "a.pdf", isDir := false }
      err := none }
  , { path := "/watch/b.pdf", info := some { name := "b.pdf", isDir := false }
      err := none } ]

/-- Witness for C9: two files at startup give exactly two no-wait job
calls, both ahead of the watcher-event job. -/
theorem startup_scan_one_job_per_file_witness :
    (∀ e ∈ scanEntries, e.info.isSome = true) ∧
    (processDir mainConfig scanEntries =
      (scanEntries.filterMap (scanJobOf mainConfig), false) ∧
     (∀ c ∈ (processDir mainConfig scanEntries).1, c.wait = false) ∧
     mainTrace mainConfig scanEntries ["/watch/c.pdf"] =
       (scanEntries.filterMap (scanJobOf mainConfig) ++
         (["/watch/c.pdf"].map (fun p => { file := p, wait := true })), false)) :=
  ⟨by decide,
    startup_scan_one_job_per_file mainConfig scanEntries ["/watch/c.pdf"]
      (by decide)⟩

/-! ### C10 -/

/-- A walk entry as `filepath.Walk` reports a per-entry lstat failure:
non-nil error, nil `FileInfo`. -/
def nilInfoEntry : WalkEntry :=
  { path := "/watch/ghost.pdf", info := none
    err := some "lstat /watch/ghost.pdf: no such file or directory" }

/-- A well-formed file entry following the failing one. -/
def afterGhostEntry : WalkEntry :=
  { path := "/watch/scan9.pdf"
    info := some { name := "scan9.pdf", isDir := false }, err := none }

/-- C10 (code bug): when the walk reports a per-entry error with a nil
`FileInfo`, the callback does log the error, but then evaluates
`info.IsDir()` on the nil info and panics: the walk is aborted and the
remaining entries are never processed, contrary to the claim that the walk
continues. -/
theorem walk_error_crashes_scan :
    (walkCallback mainConfig nilInfoEntry).loggedError = true ∧
    (walkCallback mainConfig nilInfoEntry).crashed = true ∧
    processDir mainConfig [nilInfoEntry, afterGhostEntry] = ([], true) ∧
    (walkCallback mainConfig afterGhostEntry).calls ≠ [] := by
  decide

end Scan2Webdav
